import Mathlib

/-!
Verification development for the `questrade` Rust crate (src/lib.rs,
src/auth.rs, src/error.rs): a typed client for the Questrade REST API.

The Rust code is shallowly embedded:
* JSON values (`serde_json::Value`) become the inductive `Json`;
* serde deserializers become functions `Json → Except DeError α`,
  serde serializers become functions `α → Json`;
* `reqwest` transport is a parameter `net : Request → Except ReqwestError HttpResponse`;
* the client's single mutable session slot (`RefCell<Option<AuthenticationInfo>>`)
  is threaded explicitly as `Option AuthenticationInfo`;
* `std::time::Instant` is an abstract instant, modelled as an integer tick count;
* `chrono::DateTime<Utc>` is an interface model carried as its RFC3339 rendering
  (chrono round-trips its own rendering, which is all the client relies on).
-/

namespace QTrade

/-- Model of `serde_json::Value`.  JSON numbers are modelled as integers
(`serde_json::Number`); none of the verified properties depend on
non-integral numerals. -/
inductive Json where
  | null : Json
  | bool : Bool → Json
  | num : Int → Json
  | str : String → Json
  | arr : List Json → Json
  | obj : List (String × Json) → Json

/-- Model of `serde_json::Number` (an opaque numeral wrapper in serde_json). -/
structure Number where
  val : Int
deriving DecidableEq, Repr

/-- Interface model of `chrono::DateTime<Utc>`: the value is identified with its
RFC3339 rendering, the only representation the client reads or writes. -/
structure DateTimeUtc where
  rfc3339 : String
deriving DecidableEq, Repr

/-- Model of `serde::de::Error` categories raised while decoding
(serde_json's error kinds: invalid type, invalid value, missing field,
unknown variant, plus `Error::custom`). -/
inductive DeError where
  | invalidType : String → String → DeError
  | invalidValue : String → String → DeError
  | missingField : String → DeError
  | unknownVariant : String → DeError
  | custom : String → DeError
deriving DecidableEq, Repr

/-- `src/error.rs` — `ApiError`.  `StatusCode` is modelled as the numeric
HTTP status. -/
inductive ApiError where
  | MissingFieldError : String → ApiError
  | InvalidTypeError : String → String → ApiError
  | NotAuthenticatedError : Nat → ApiError
deriving DecidableEq, Repr

/-- Model of `reqwest::Error`: either an error produced by
`Response::error_for_status` (for which `is_status()` is true and `status()`
returns the code), or any other transport failure (connect, timeout, ...),
kept abstract as a tag. -/
inductive ReqwestError where
  | status : Nat → ReqwestError
  | other : String → ReqwestError
deriving DecidableEq, Repr

/-- `reqwest::Error::is_status()`. -/
def ReqwestError.is_status : ReqwestError → Bool
  | .status _ => true
  | .other _ => false

/-- Model of the `Box<dyn Error>` that every client method returns: the
concrete error types that can flow into it in this crate. -/
inductive DynError where
  | api : ApiError → DynError
  | reqwest : ReqwestError → DynError
  | decode : DeError → DynError
deriving DecidableEq, Repr

/-- `src/lib.rs` lines 384–394 — `wrap_error`: a status error equal to 401 or
403 is replaced by `ApiError::NotAuthenticatedError(status)`; every other
`reqwest::Error` is boxed unchanged. -/
def wrap_error (e : ReqwestError) : DynError :=
  if e.is_status then
    match e with
    | .status status =>
        if status = 401 ∨ status = 403 then
          .api (.NotAuthenticatedError status)
        else .reqwest e
    | .other _ => .reqwest e
  else .reqwest e

/-- `reqwest::Response::error_for_status`: errors exactly on client-error
(4xx) and server-error (5xx) statuses. -/
def error_for_status (status : Nat) : Except ReqwestError Unit :=
  if 400 ≤ status ∧ status ≤ 599 then .error (.status status) else .ok ()

/-! ### Primitive serde codecs -/

/-- Field lookup in a decoded JSON map (serde derive fills struct fields by
name; payloads in scope have no duplicate keys). -/
def lookupField (fs : List (String × Json)) (k : String) : Option Json :=
  match fs with
  | [] => none
  | (k', v) :: rest => if k' = k then some v else lookupField rest k

/-- serde deserialization of `String` from JSON. -/
def decodeString : Json → Except DeError String
  | .str s => .ok s
  | _ => .error (.invalidType "non-string" "a string")

/-- serde deserialization of `bool` from JSON. -/
def decodeBool : Json → Except DeError Bool
  | .bool b => .ok b
  | _ => .error (.invalidType "non-boolean" "a boolean")

/-- serde_json deserialization of `u8`: an integral JSON number in `0..=255`. -/
def decodeU8 : Json → Except DeError Nat
  | .num n =>
      if 0 ≤ n ∧ n ≤ 255 then .ok n.toNat
      else .error (.invalidValue (toString n) "u8")
  | _ => .error (.invalidType "non-integer" "u8")

/-- Rust `u32` (the crate's `SymbolId`, `OrderId`, `ExecutionId`, `UserId`
aliases): a natural number below `2^32`. -/
abbrev U32 := Fin 4294967296

/-- serde_json deserialization of `u32`: an integral JSON number within the
`u32` range. -/
def decodeU32 : Json → Except DeError U32
  | .num n =>
      if h : 0 ≤ n ∧ n ≤ 4294967295 then .ok ⟨n.toNat, by omega⟩
      else .error (.invalidValue (toString n) "u32")
  | _ => .error (.invalidType "non-integer" "u32")

/-- serde_json deserialization of `u64` (used for `expires_in`). -/
def decodeU64 : Json → Except DeError Nat
  | .num n =>
      if 0 ≤ n then .ok n.toNat
      else .error (.invalidValue (toString n) "u64")
  | _ => .error (.invalidType "non-integer" "u64")

/-- serde_json deserialization of `serde_json::Number`. -/
def decodeNumber : Json → Except DeError Number
  | .num n => .ok ⟨n⟩
  | _ => .error (.invalidType "non-number" "a JSON number")

/-- chrono deserialization of `DateTime<Utc>` from an RFC3339 string (interface
model: the rendering is kept verbatim). -/
def decodeDateTime : Json → Except DeError DateTimeUtc
  | .str s => .ok ⟨s⟩
  | _ => .error (.invalidType "non-string" "an RFC3339 datetime string")

/-- serde deserialization of `Option<T>`: `null` is `None`, anything else is
decoded by the inner deserializer. -/
def decodeOption (p : Json → Except DeError α) : Json → Except DeError (Option α)
  | .null => .ok none
  | j => (p j).map some

/-- serde deserialization of `Vec<T>`. -/
def decodeList (p : Json → Except DeError α) : Json → Except DeError (List α)
  | .arr xs => xs.mapM p
  | _ => .error (.invalidType "non-array" "a sequence")

/-- A required struct field (serde derive: absent required field is a
`missing field` error, reported under the field's primary payload name). -/
def reqField (fs : List (String × Json)) (name : String)
    (p : Json → Except DeError α) : Except DeError α :=
  match lookupField fs name with
  | some v => p v
  | none => .error (.missingField name)

/-- A required struct field that also accepts a `#[serde(alias = ...)]`
payload name. -/
def reqFieldAlias (fs : List (String × Json)) (name alias' : String)
    (p : Json → Except DeError α) : Except DeError α :=
  match lookupField fs name with
  | some v => p v
  | none =>
    match lookupField fs alias' with
    | some v => p v
    | none => .error (.missingField name)

/-- A plain `Option<T>` struct field without custom deserializer: serde
treats an absent field as `None`. -/
def optField (fs : List (String × Json)) (name : String)
    (p : Json → Except DeError α) : Except DeError (Option α) :=
  match lookupField fs name with
  | some v => decodeOption p v
  | none => .ok none

/-! ### The crate's custom deserializers (src/lib.rs) -/

/-- `src/lib.rs` lines 756–771 — `deserialize_nullable_number`: decodes
`Option<Number>`, mapping `None` (JSON `null`) to the number `0` built by
`json!(0)` (which is always a `Value::Number`, so the defensive error arm is
dead code). -/
def deserialize_nullable_number (j : Json) : Except DeError Number := do
  let number ← decodeOption decodeNumber j
  match number with
  | some num => .ok num
  | none => .ok ⟨0⟩

/-- `src/lib.rs` lines 1092–1106 — `deserialize_delay`: decodes a `u8` and
maps `0` to `false`, `1` to `true`, anything else to a custom decode error. -/
def deserialize_delay (j : Json) : Except DeError Bool := do
  let delay ← decodeU8 j
  match delay with
  | 0 => .ok false
  | 1 => .ok true
  | _ => .error (.custom ("expected delay to be 0 or 1. Got: " ++ toString delay))

/-- `serde_with::rust::string_empty_as_none::deserialize` (the crate's
external helper, used with `S = String`): JSON `null` and the empty string
decode to `None`; a non-empty string decodes to `Some` of itself. -/
def string_empty_as_none (j : Json) : Except DeError (Option String) :=
  match j with
  | .null => .ok none
  | .str s => if s = "" then .ok none else .ok (some s)
  | _ => .error (.invalidType "non-string" "a string")

/-- An `Option<String>` struct field deserialized with
`string_empty_as_none` (a `deserialize_with` field is required: serde errors
if it is absent). -/
def emptyAsNoneField (fs : List (String × Json)) (name : String) :
    Except DeError (Option String) :=
  reqField fs name string_empty_as_none

/-! ### AuthenticationSession (src/auth.rs) -/

/-- `src/auth.rs` — `AuthenticationInfo`.  `expires_at : Int` models the
abstract `std::time::Instant`. -/
structure AuthenticationInfo where
  refresh_token : String
  access_token : String
  expires_at : Int
  api_server : String
  is_demo : Bool
deriving DecidableEq, Repr

/-- The private response shape of the token exchange
(`AuthenticationInfoResponse` in `refresh_access_token`). -/
structure AuthenticationInfoResponse where
  refresh_token : String
  access_token : String
  expires_in : Nat
  api_server : String
deriving DecidableEq, Repr

/-- serde derive for `AuthenticationInfoResponse` (all four fields required,
payload names equal to the Rust field names). -/
def decodeAuthenticationInfoResponse (j : Json) :
    Except DeError AuthenticationInfoResponse :=
  match j with
  | .obj fs => do
    let refresh_token ← reqField fs "refresh_token" decodeString
    let access_token ← reqField fs "access_token" decodeString
    let expires_in ← reqField fs "expires_in" decodeU64
    let api_server ← reqField fs "api_server" decodeString
    .ok ⟨refresh_token, access_token, expires_in, api_server⟩
  | _ => .error (.invalidType "non-object" "struct AuthenticationInfoResponse")

/-- Rust `str::trim_end_matches('/')` on the character list. -/
def trimEndSlashList (l : List Char) : List Char :=
  ((l.reverse.dropWhile (fun c => c = '/')).reverse)

/-- Rust `response.api_server.trim_end_matches('/')`. -/
def trimEndSlash (s : String) : String :=
  ⟨trimEndSlashList s.data⟩

/-- `src/auth.rs` lines 82–88 — `get_url`: the two fixed token-exchange
endpoints, selected by `is_demo`. -/
def get_url (is_demo : Bool) : String :=
  if is_demo then "https://practicelogin.questrade.com/oauth2/token"
  else "https://login.questrade.com/oauth2/token"

/-- The session built by `refresh_access_token` from a decoded response
(`src/auth.rs` lines 70–76): `expires_at = Instant::now() + expires_in`
(`now` is the response-capture instant), `api_server` with trailing slashes
trimmed, `is_demo` threaded through. -/
def sessionOfResponse (response : AuthenticationInfoResponse) (now : Int)
    (is_demo : Bool) : AuthenticationInfo :=
  { refresh_token := response.refresh_token
    access_token := response.access_token
    expires_at := now + response.expires_in
    api_server := trimEndSlash response.api_server
    is_demo := is_demo }

/-! ### Domain enums (src/lib.rs), with their serde payload names -/

/-- serde derive for a unit-variant enum: a JSON string matched against the
variant payload names (`ofS`); an unknown string is an unknown-variant
error. -/
def decodeEnumWith (ofS : String → Option α) (j : Json) : Except DeError α :=
  match j with
  | .str s =>
    match ofS s with
    | some v => .ok v
    | none => .error (.unknownVariant s)
  | _ => .error (.invalidType "non-string" "variant identifier")

/-- `AccountType` (src/lib.rs lines 425–471). -/
inductive AccountType where
  | Cash | Margin | TFSA | RRSP | SRRSP | LRRSP | LIRA | LIF | RIF | SRIF
  | LRIF | RRIF | PRIF | RESP | FRESP
deriving DecidableEq, Repr

def AccountType.toPayload : AccountType → String
  | .Cash => "Cash" | .Margin => "Margin" | .TFSA => "TFSA" | .RRSP => "RRSP"
  | .SRRSP => "SRRSP" | .LRRSP => "LRRSP" | .LIRA => "LIRA" | .LIF => "LIF"
  | .RIF => "RIF" | .SRIF => "SRIF" | .LRIF => "LRIF" | .RRIF => "RRIF"
  | .PRIF => "PRIF" | .RESP => "RESP" | .FRESP => "FRESP"

def AccountType.ofPayload : String → Option AccountType
  | "Cash" => some .Cash | "Margin" => some .Margin | "TFSA" => some .TFSA
  | "RRSP" => some .RRSP | "SRRSP" => some .SRRSP | "LRRSP" => some .LRRSP
  | "LIRA" => some .LIRA | "LIF" => some .LIF | "RIF" => some .RIF
  | "SRIF" => some .SRIF | "LRIF" => some .LRIF | "RRIF" => some .RRIF
  | "PRIF" => some .PRIF | "RESP" => some .RESP | "FRESP" => some .FRESP
  | _ => none

/-- `AccountStatus` (src/lib.rs lines 474–488), with its serde renames. -/
inductive AccountStatus where
  | Active | SuspendedClosed | SuspendedViewOnly | Liquidate | Closed
deriving DecidableEq, Repr

def AccountStatus.toPayload : AccountStatus → String
  | .Active => "Active"
  | .SuspendedClosed => "Suspended (Closed)"
  | .SuspendedViewOnly => "Suspended (View Only)"
  | .Liquidate => "Liquidate Only"
  | .Closed => "Closed"

def AccountStatus.ofPayload : String → Option AccountStatus
  | "Active" => some .Active
  | "Suspended (Closed)" => some .SuspendedClosed
  | "Suspended (View Only)" => some .SuspendedViewOnly
  | "Liquidate Only" => some .Liquidate
  | "Closed" => some .Closed
  | _ => none

/-- `ClientAccountType` (src/lib.rs lines 491–530), with its serde renames. -/
inductive ClientAccountType where
  | Individual | Joint | InformalTrust | Corporation | InvestmentClub
  | FormalTrust | Partnership | SoleProprietorship | Family
  | JointAndInformalTrust | Institution
deriving DecidableEq, Repr

def ClientAccountType.toPayload : ClientAccountType → String
  | .Individual => "Individual" | .Joint => "Joint"
  | .InformalTrust => "Informal Trust" | .Corporation => "Corporation"
  | .InvestmentClub => "Investment Club" | .FormalTrust => "Formal Trust"
  | .Partnership => "Partnership"
  | .SoleProprietorship => "Sole Proprietorship" | .Family => "Family"
  | .JointAndInformalTrust => "Joint and Informal Trust"
  | .Institution => "Institution"

def ClientAccountType.ofPayload : String → Option ClientAccountType
  | "Individual" => some .Individual | "Joint" => some .Joint
  | "Informal Trust" => some .InformalTrust
  | "Corporation" => some .Corporation
  | "Investment Club" => some .InvestmentClub
  | "Formal Trust" => some .FormalTrust
  | "Partnership" => some .Partnership
  | "Sole Proprietorship" => some .SoleProprietorship
  | "Family" => some .Family
  | "Joint and Informal Trust" => some .JointAndInformalTrust
  | "Institution" => some .Institution
  | _ => none

/-- `OrderSide` (src/lib.rs lines 773–796), with its serde renames. -/
inductive OrderSide where
  | Buy | Sell | Short | Cover | BuyToOpen | SellToClose | SellToOpen
  | BuyToClose
deriving DecidableEq, Repr

def OrderSide.toPayload : OrderSide → String
  | .Buy => "Buy" | .Sell => "Sell" | .Short => "Short" | .Cover => "Cov"
  | .BuyToOpen => "BTO" | .SellToClose => "STC" | .SellToOpen => "STO"
  | .BuyToClose => "BTC"

def OrderSide.ofPayload : String → Option OrderSide
  | "Buy" => some .Buy | "Sell" => some .Sell | "Short" => some .Short
  | "Cov" => some .Cover | "BTO" => some .BuyToOpen
  | "STC" => some .SellToClose | "STO" => some .SellToOpen
  | "BTC" => some .BuyToClose
  | _ => none

/-- `OrderType` (src/lib.rs lines 798–810). -/
inductive OrderType where
  | Market | Limit | Stop | StopLimit | TrailStopInPercentage
  | TrailStopInDollar | TrailStopLimitInPercentage | TrailStopLimitInDollar
  | LimitOnOpen | LimitOnClose
deriving DecidableEq, Repr

def OrderType.toPayload : OrderType → String
  | .Market => "Market" | .Limit => "Limit" | .Stop => "Stop"
  | .StopLimit => "StopLimit"
  | .TrailStopInPercentage => "TrailStopInPercentage"
  | .TrailStopInDollar => "TrailStopInDollar"
  | .TrailStopLimitInPercentage => "TrailStopLimitInPercentage"
  | .TrailStopLimitInDollar => "TrailStopLimitInDollar"
  | .LimitOnOpen => "LimitOnOpen" | .LimitOnClose => "LimitOnClose"

def OrderType.ofPayload : String → Option OrderType
  | "Market" => some .Market | "Limit" => some .Limit | "Stop" => some .Stop
  | "StopLimit" => some .StopLimit
  | "TrailStopInPercentage" => some .TrailStopInPercentage
  | "TrailStopInDollar" => some .TrailStopInDollar
  | "TrailStopLimitInPercentage" => some .TrailStopLimitInPercentage
  | "TrailStopLimitInDollar" => some .TrailStopLimitInDollar
  | "LimitOnOpen" => some .LimitOnOpen
  | "LimitOnClose" => some .LimitOnClose
  | _ => none

/-- `OrderTimeInForce` (src/lib.rs lines 812–820). -/
inductive OrderTimeInForce where
  | Day | GoodTillCanceled | GoodTillExtendedDay | GoodTillDate
  | ImmediateOrCancel | FillOrKill
deriving DecidableEq, Repr

def OrderTimeInForce.toPayload : OrderTimeInForce → String
  | .Day => "Day" | .GoodTillCanceled => "GoodTillCanceled"
  | .GoodTillExtendedDay => "GoodTillExtendedDay"
  | .GoodTillDate => "GoodTillDate"
  | .ImmediateOrCancel => "ImmediateOrCancel" | .FillOrKill => "FillOrKill"

def OrderTimeInForce.ofPayload : String → Option OrderTimeInForce
  | "Day" => some .Day | "GoodTillCanceled" => some .GoodTillCanceled
  | "GoodTillExtendedDay" => some .GoodTillExtendedDay
  | "GoodTillDate" => some .GoodTillDate
  | "ImmediateOrCancel" => some .ImmediateOrCancel
  | "FillOrKill" => some .FillOrKill
  | _ => none

/-- `OrderState` (src/lib.rs lines 822–843). -/
inductive OrderState where
  | Failed | Pending | Accepted | Rejected | CancelPending | Canceled
  | PartialCanceled | Partial | Executed | ReplacePending | Replaced
  | Stopped | Suspended | Expired | Queued | Triggered | Activated
  | PendingRiskReview | ContingentOrder
deriving DecidableEq, Repr

def OrderState.toPayload : OrderState → String
  | .Failed => "Failed" | .Pending => "Pending" | .Accepted => "Accepted"
  | .Rejected => "Rejected" | .CancelPending => "CancelPending"
  | .Canceled => "Canceled" | .PartialCanceled => "PartialCanceled"
  | .Partial => "Partial" | .Executed => "Executed"
  | .ReplacePending => "ReplacePending" | .Replaced => "Replaced"
  | .Stopped => "Stopped" | .Suspended => "Suspended" | .Expired => "Expired"
  | .Queued => "Queued" | .Triggered => "Triggered"
  | .Activated => "Activated" | .PendingRiskReview => "PendingRiskReview"
  | .ContingentOrder => "ContingentOrder"

def OrderState.ofPayload : String → Option OrderState
  | "Failed" => some .Failed | "Pending" => some .Pending
  | "Accepted" => some .Accepted | "Rejected" => some .Rejected
  | "CancelPending" => some .CancelPending | "Canceled" => some .Canceled
  | "PartialCanceled" => some .PartialCanceled | "Partial" => some .Partial
  | "Executed" => some .Executed | "ReplacePending" => some .ReplacePending
  | "Replaced" => some .Replaced | "Stopped" => some .Stopped
  | "Suspended" => some .Suspended | "Expired" => some .Expired
  | "Queued" => some .Queued | "Triggered" => some .Triggered
  | "Activated" => some .Activated
  | "PendingRiskReview" => some .PendingRiskReview
  | "ContingentOrder" => some .ContingentOrder
  | _ => none

/-- `OrderStateFilter` (src/lib.rs lines 845–850) — no serde derive; mapped to
a query-string literal inside `account_orders`. -/
inductive OrderStateFilter where
  | All | Open | Closed
deriving DecidableEq, Repr

/-- `Currency` (src/lib.rs lines 940–944). -/
inductive Currency where
  | CAD | USD
deriving DecidableEq, Repr

def Currency.toPayload : Currency → String
  | .CAD => "CAD" | .USD => "USD"

def Currency.ofPayload : String → Option Currency
  | "CAD" => some .CAD | "USD" => some .USD
  | _ => none

/-- `TickType` (src/lib.rs lines 1235–1245). -/
inductive TickType where
  | Up | Down | Equal
deriving DecidableEq, Repr

def TickType.toPayload : TickType → String
  | .Up => "Up" | .Down => "Down" | .Equal => "Equal"

def TickType.ofPayload : String → Option TickType
  | "Up" => some .Up | "Down" => some .Down | "Equal" => some .Equal
  | _ => none

/-- `ListingExchange` (src/lib.rs lines 1142–1207), with its serde renames;
the `None` variant is renamed to the empty string (absent exchange). -/
inductive ListingExchange where
  | TSX | TSXI | TSXV | CNSX | MX | NASDAQ | NASDAQI | NYSE | NYSEAM
  | NYSEGIF | ARCA | OPRA | PinkSheets | OTCBB | BATS | DowJonesAverage
  | SP | NEO | RUSSELL | None
deriving DecidableEq, Repr

def ListingExchange.toPayload : ListingExchange → String
  | .TSX => "TSX" | .TSXI => "TSXI" | .TSXV => "TSXV" | .CNSX => "CNSX"
  | .MX => "MX" | .NASDAQ => "NASDAQ" | .NASDAQI => "NASDAQI"
  | .NYSE => "NYSE" | .NYSEAM => "NYSEAM" | .NYSEGIF => "NYSEGIF"
  | .ARCA => "ARCA" | .OPRA => "OPRA" | .PinkSheets => "PINX"
  | .OTCBB => "OTCBB" | .BATS => "BATS" | .DowJonesAverage => "DJI"
  | .SP => "S&P" | .NEO => "NEO" | .RUSSELL => "RUSSELL"
  | .None => ""

def ListingExchange.ofPayload : String → Option ListingExchange
  | "TSX" => some .TSX | "TSXI" => some .TSXI | "TSXV" => some .TSXV
  | "CNSX" => some .CNSX | "MX" => some .MX | "NASDAQ" => some .NASDAQ
  | "NASDAQI" => some .NASDAQI | "NYSE" => some .NYSE
  | "NYSEAM" => some .NYSEAM | "NYSEGIF" => some .NYSEGIF
  | "ARCA" => some .ARCA | "OPRA" => some .OPRA
  | "PINX" => some .PinkSheets | "OTCBB" => some .OTCBB
  | "BATS" => some .BATS | "DJI" => some .DowJonesAverage
  | "S&P" => some .SP | "NEO" => some .NEO | "RUSSELL" => some .RUSSELL
  | "" => some .None
  | _ => none

/-- `SecurityType` (src/lib.rs lines 1210–1232). -/
inductive SecurityType where
  | Stock | Option | Bond | Right | Gold | MutualFund | Index
deriving DecidableEq, Repr

def SecurityType.toPayload : SecurityType → String
  | .Stock => "Stock" | .Option => "Option" | .Bond => "Bond"
  | .Right => "Right" | .Gold => "Gold" | .MutualFund => "MutualFund"
  | .Index => "Index"

/-- Payload names of `SecurityType` (named outside the `SecurityType`
namespace because the enum has a variant literally called `Option`). -/
def securityTypeOfPayload : String → Option SecurityType
  | "Stock" => some .Stock | "Option" => some .Option | "Bond" => some .Bond
  | "Right" => some .Right | "Gold" => some .Gold
  | "MutualFund" => some .MutualFund | "Index" => some .Index
  | _ => none

/-! ### Serialization primitives (the serde Serialize derives) -/

def encodeNumber (n : Number) : Json := .num n.val

def encodeDateTime (d : DateTimeUtc) : Json := .str d.rfc3339

/-- serde serialization of a plain `Option<T>` field: `None` is `null`. -/
def encodeOption (enc : α → Json) : Option α → Json
  | none => .null
  | some v => enc v

/-! ### Domain records (src/lib.rs) -/

/-- `Account` (src/lib.rs lines 399–422). -/
structure Account where
  account_type : AccountType
  number : String
  status : AccountStatus
  is_primary : Bool
  is_billing : Bool
  client_account_type : ClientAccountType
deriving DecidableEq, Repr

/-- Serialize derive for `Account` (fields in declaration order, serde
renames applied). -/
def encodeAccount (a : Account) : Json :=
  .obj [("type", .str a.account_type.toPayload),
        ("number", .str a.number),
        ("status", .str a.status.toPayload),
        ("isPrimary", .bool a.is_primary),
        ("isBilling", .bool a.is_billing),
        ("clientAccountType", .str a.client_account_type.toPayload)]

/-- Deserialize derive for `Account`. -/
def decodeAccount (j : Json) : Except DeError Account :=
  match j with
  | .obj fs => do
    let account_type ← reqField fs "type" (decodeEnumWith AccountType.ofPayload)
    let number ← reqField fs "number" decodeString
    let status ← reqField fs "status" (decodeEnumWith AccountStatus.ofPayload)
    let is_primary ← reqField fs "isPrimary" decodeBool
    let is_billing ← reqField fs "isBilling" decodeBool
    let client_account_type ←
      reqField fs "clientAccountType" (decodeEnumWith ClientAccountType.ofPayload)
    .ok ⟨account_type, number, status, is_primary, is_billing,
         client_account_type⟩
  | _ => .error (.invalidType "non-object" "struct Account")

/-- `AccountActivity` (src/lib.rs lines 533–583). -/
structure AccountActivity where
  trade_date : DateTimeUtc
  transaction_date : DateTimeUtc
  settlement_date : DateTimeUtc
  action : String
  symbol : String
  symbol_id : U32
  description : String
  currency : String
  quantity : Number
  price : Number
  gross_amount : Number
  commission : Number
  net_amount : Number
  activity_type : String
deriving DecidableEq, Repr

def encodeAccountActivity (a : AccountActivity) : Json :=
  .obj [("tradeDate", encodeDateTime a.trade_date),
        ("transactionDate", encodeDateTime a.transaction_date),
        ("settlementDate", encodeDateTime a.settlement_date),
        ("action", .str a.action),
        ("symbol", .str a.symbol),
        ("symbolId", .num a.symbol_id.val),
        ("description", .str a.description),
        ("currency", .str a.currency),
        ("quantity", encodeNumber a.quantity),
        ("price", encodeNumber a.price),
        ("grossAmount", encodeNumber a.gross_amount),
        ("commission", encodeNumber a.commission),
        ("netAmount", encodeNumber a.net_amount),
        ("type", .str a.activity_type)]

def decodeAccountActivity (j : Json) : Except DeError AccountActivity :=
  match j with
  | .obj fs => do
    let trade_date ← reqField fs "tradeDate" decodeDateTime
    let transaction_date ← reqField fs "transactionDate" decodeDateTime
    let settlement_date ← reqField fs "settlementDate" decodeDateTime
    let action ← reqField fs "action" decodeString
    let symbol ← reqField fs "symbol" decodeString
    let symbol_id ← reqField fs "symbolId" decodeU32
    let description ← reqField fs "description" decodeString
    let currency ← reqField fs "currency" decodeString
    let quantity ← reqField fs "quantity" decodeNumber
    let price ← reqField fs "price" decodeNumber
    let gross_amount ← reqField fs "grossAmount" decodeNumber
    let commission ← reqField fs "commission" decodeNumber
    let net_amount ← reqField fs "netAmount" decodeNumber
    let activity_type ← reqField fs "type" decodeString
    .ok ⟨trade_date, transaction_date, settlement_date, action, symbol,
         symbol_id, description, currency, quantity, price, gross_amount,
         commission, net_amount, activity_type⟩
  | _ => .error (.invalidType "non-object" "struct AccountActivity")

/-- `AccountOrder` (src/lib.rs lines 585–754). -/
structure AccountOrder where
  id : U32
  symbol : String
  symbol_id : U32
  total_quantity : Number
  open_quantity : Number
  filled_quantity : Number
  canceled_quantity : Number
  side : OrderSide
  order_type : OrderType
  limit_price : Option Number
  stop_price : Option Number
  is_all_or_none : Bool
  is_anonymous : Bool
  iceberg_quantity : Option Number
  min_quantity : Option Number
  avg_execution_price : Option Number
  last_execution_price : Option Number
  source : String
  time_in_force : OrderTimeInForce
  good_till_date : Option DateTimeUtc
  state : OrderState
  rejection_reason : Option String
  chain_id : U32
  creation_time : DateTimeUtc
  update_time : DateTimeUtc
  notes : Option String
  primary_route : String
  secondary_route : Option String
  order_route : String
  venue_holding_order : Option String
  commission_charged : Number
  exchange_order_id : String
  is_significant_shareholder : Bool
  is_insider : Bool
  is_limit_offset_in_dollars : Bool
  user_id : U32
  placement_commission : Number
  strategy_type : String
  trigger_stop_price : Option Number
  order_group_id : U32
  order_class : Option String
deriving DecidableEq, Repr

/-- Serialize derive for `AccountOrder`: declaration order, serde renames;
fields with only a custom *de*serializer serialize with the default for
their Rust type (`Number` as a number, `Option<String>` as null-or-string). -/
def encodeAccountOrder (o : AccountOrder) : Json :=
  .obj [("id", .num o.id.val),
        ("symbol", .str o.symbol),
        ("symbolId", .num o.symbol_id.val),
        ("totalQuantity", encodeNumber o.total_quantity),
        ("openQuantity", encodeNumber o.open_quantity),
        ("filledQuantity", encodeNumber o.filled_quantity),
        ("canceledQuantity", encodeNumber o.canceled_quantity),
        ("side", .str o.side.toPayload),
        ("orderType", .str o.order_type.toPayload),
        ("limitPrice", encodeOption encodeNumber o.limit_price),
        ("stopPrice", encodeOption encodeNumber o.stop_price),
        ("isAllOrNone", .bool o.is_all_or_none),
        ("isAnonymous", .bool o.is_anonymous),
        ("icebergQuantity", encodeOption encodeNumber o.iceberg_quantity),
        ("minQuantity", encodeOption encodeNumber o.min_quantity),
        ("avgExecPrice", encodeOption encodeNumber o.avg_execution_price),
        ("lastExecPrice", encodeOption encodeNumber o.last_execution_price),
        ("source", .str o.source),
        ("timeInForce", .str o.time_in_force.toPayload),
        ("gtdDate", encodeOption encodeDateTime o.good_till_date),
        ("state", .str o.state.toPayload),
        ("clientReasonStr", encodeOption Json.str o.rejection_reason),
        ("chainId", .num o.chain_id.val),
        ("creationTime", encodeDateTime o.creation_time),
        ("updateTime", encodeDateTime o.update_time),
        ("notes", encodeOption Json.str o.notes),
        ("primaryRoute", .str o.primary_route),
        ("secondaryRoute", encodeOption Json.str o.secondary_route),
        ("orderRoute", .str o.order_route),
        ("venueHoldingOrder", encodeOption Json.str o.venue_holding_order),
        ("comissionCharged", encodeNumber o.commission_charged),
        ("exchangeOrderId", .str o.exchange_order_id),
        ("isSignificantShareHolder", .bool o.is_significant_shareholder),
        ("isInsider", .bool o.is_insider),
        ("isLimitOffsetInDollar", .bool o.is_limit_offset_in_dollars),
        ("userId", .num o.user_id.val),
        ("placementCommission", encodeNumber o.placement_commission),
        ("strategyType", .str o.strategy_type),
        ("triggerStopPrice", encodeOption encodeNumber o.trigger_stop_price),
        ("orderGroupId", .num o.order_group_id.val),
        ("orderClass", encodeOption Json.str o.order_class)]

/-- Deserialize derive for `AccountOrder`: `orderType` accepts the alias
`type`; `clientReasonStr` accepts the alias `rejectionReason`; the three
quantity fields, `comissionCharged` and `placementCommission` use
`deserialize_nullable_number`; `clientReasonStr`, `notes`, `secondaryRoute`
and `venueHoldingOrder` use `string_empty_as_none`. -/
def decodeAccountOrder (j : Json) : Except DeError AccountOrder :=
  match j with
  | .obj fs => do
    let id ← reqField fs "id" decodeU32
    let symbol ← reqField fs "symbol" decodeString
    let symbol_id ← reqField fs "symbolId" decodeU32
    let total_quantity ← reqField fs "totalQuantity" decodeNumber
    let open_quantity ← reqField fs "openQuantity" deserialize_nullable_number
    let filled_quantity ← reqField fs "filledQuantity" deserialize_nullable_number
    let canceled_quantity ← reqField fs "canceledQuantity" deserialize_nullable_number
    let side ← reqField fs "side" (decodeEnumWith OrderSide.ofPayload)
    let order_type ← reqFieldAlias fs "orderType" "type" (decodeEnumWith OrderType.ofPayload)
    let limit_price ← optField fs "limitPrice" decodeNumber
    let stop_price ← optField fs "stopPrice" decodeNumber
    let is_all_or_none ← reqField fs "isAllOrNone" decodeBool
    let is_anonymous ← reqField fs "isAnonymous" decodeBool
    let iceberg_quantity ← optField fs "icebergQuantity" decodeNumber
    let min_quantity ← optField fs "minQuantity" decodeNumber
    let avg_execution_price ← optField fs "avgExecPrice" decodeNumber
    let last_execution_price ← optField fs "lastExecPrice" decodeNumber
    let source ← reqField fs "source" decodeString
    let time_in_force ← reqField fs "timeInForce" (decodeEnumWith OrderTimeInForce.ofPayload)
    let good_till_date ← optField fs "gtdDate" decodeDateTime
    let state ← reqField fs "state" (decodeEnumWith OrderState.ofPayload)
    let rejection_reason ←
      reqFieldAlias fs "clientReasonStr" "rejectionReason" string_empty_as_none
    let chain_id ← reqField fs "chainId" decodeU32
    let creation_time ← reqField fs "creationTime" decodeDateTime
    let update_time ← reqField fs "updateTime" decodeDateTime
    let notes ← emptyAsNoneField fs "notes"
    let primary_route ← reqField fs "primaryRoute" decodeString
    let secondary_route ← emptyAsNoneField fs "secondaryRoute"
    let order_route ← reqField fs "orderRoute" decodeString
    let venue_holding_order ← emptyAsNoneField fs "venueHoldingOrder"
    let commission_charged ← reqField fs "comissionCharged" deserialize_nullable_number
    let exchange_order_id ← reqField fs "exchangeOrderId" decodeString
    let is_significant_shareholder ← reqField fs "isSignificantShareHolder" decodeBool
    let is_insider ← reqField fs "isInsider" decodeBool
    let is_limit_offset_in_dollars ← reqField fs "isLimitOffsetInDollar" decodeBool
    let user_id ← reqField fs "userId" decodeU32
    let placement_commission ← reqField fs "placementCommission" deserialize_nullable_number
    let strategy_type ← reqField fs "strategyType" decodeString
    let trigger_stop_price ← optField fs "triggerStopPrice" decodeNumber
    let order_group_id ← reqField fs "orderGroupId" decodeU32
    let order_class ← optField fs "orderClass" decodeString
    .ok ⟨id, symbol, symbol_id, total_quantity, open_quantity,
         filled_quantity, canceled_quantity, side, order_type, limit_price,
         stop_price, is_all_or_none, is_anonymous, iceberg_quantity,
         min_quantity, avg_execution_price, last_execution_price, source,
         time_in_force, good_till_date, state, rejection_reason, chain_id,
         creation_time, update_time, notes, primary_route, secondary_route,
         order_route, venue_holding_order, commission_charged,
         exchange_order_id, is_significant_shareholder, is_insider,
         is_limit_offset_in_dollars, user_id, placement_commission,
         strategy_type, trigger_stop_price, order_group_id, order_class⟩
  | _ => .error (.invalidType "non-object" "struct AccountOrder")

/-- `AccountExecution` (src/lib.rs lines 853–908). -/
structure AccountExecution where
  id : U32
  order_id : U32
  symbol : String
  symbol_id : U32
  quantity : Number
  side : OrderSide
  price : Number
  order_chain_id : U32
  timestamp : DateTimeUtc
  notes : Option String
  commission : Number
  execution_fee : Number
  sec_fee : Number
  canadian_execution_fee : Number
  parent_id : U32
deriving DecidableEq, Repr

def encodeAccountExecution (e : AccountExecution) : Json :=
  .obj [("id", .num e.id.val),
        ("orderId", .num e.order_id.val),
        ("symbol", .str e.symbol),
        ("symbolId", .num e.symbol_id.val),
        ("quantity", encodeNumber e.quantity),
        ("side", .str e.side.toPayload),
        ("price", encodeNumber e.price),
        ("orderChainId", .num e.order_chain_id.val),
        ("timestamp", encodeDateTime e.timestamp),
        ("notes", encodeOption Json.str e.notes),
        ("commission", encodeNumber e.commission),
        ("executionFee", encodeNumber e.execution_fee),
        ("secFee", encodeNumber e.sec_fee),
        ("canadianExecutionFee", encodeNumber e.canadian_execution_fee),
        ("parentId", .num e.parent_id.val)]

def decodeAccountExecution (j : Json) : Except DeError AccountExecution :=
  match j with
  | .obj fs => do
    let id ← reqField fs "id" decodeU32
    let order_id ← reqField fs "orderId" decodeU32
    let symbol ← reqField fs "symbol" decodeString
    let symbol_id ← reqField fs "symbolId" decodeU32
    let quantity ← reqField fs "quantity" decodeNumber
    let side ← reqField fs "side" (decodeEnumWith OrderSide.ofPayload)
    let price ← reqField fs "price" decodeNumber
    let order_chain_id ← reqField fs "orderChainId" decodeU32
    let timestamp ← reqField fs "timestamp" decodeDateTime
    let notes ← emptyAsNoneField fs "notes"
    let commission ← reqField fs "commission" decodeNumber
    let execution_fee ← reqField fs "executionFee" decodeNumber
    let sec_fee ← reqField fs "secFee" decodeNumber
    let canadian_execution_fee ← reqField fs "canadianExecutionFee" decodeNumber
    let parent_id ← reqField fs "parentId" decodeU32
    .ok ⟨id, order_id, symbol, symbol_id, quantity, side, price,
         order_chain_id, timestamp, notes, commission, execution_fee,
         sec_fee, canadian_execution_fee, parent_id⟩
  | _ => .error (.invalidType "non-object" "struct AccountExecution")

/-- `AccountBalance` (src/lib.rs lines 911–938). -/
structure AccountBalance where
  currency : Currency
  cash : Number
  market_value : Number
  total_equity : Number
  buying_power : Number
  maintenance_excess : Number
  is_real_time : Bool
deriving DecidableEq, Repr

def encodeAccountBalance (b : AccountBalance) : Json :=
  .obj [("currency", .str b.currency.toPayload),
        ("cash", encodeNumber b.cash),
        ("marketValue", encodeNumber b.market_value),
        ("totalEquity", encodeNumber b.total_equity),
        ("buyingPower", encodeNumber b.buying_power),
        ("maintenanceExcess", encodeNumber b.maintenance_excess),
        ("isRealTime", .bool b.is_real_time)]

def decodeAccountBalance (j : Json) : Except DeError AccountBalance :=
  match j with
  | .obj fs => do
    let currency ← reqField fs "currency" (decodeEnumWith Currency.ofPayload)
    let cash ← reqField fs "cash" decodeNumber
    let market_value ← reqField fs "marketValue" decodeNumber
    let total_equity ← reqField fs "totalEquity" decodeNumber
    let buying_power ← reqField fs "buyingPower" decodeNumber
    let maintenance_excess ← reqField fs "maintenanceExcess" decodeNumber
    let is_real_time ← reqField fs "isRealTime" decodeBool
    .ok ⟨currency, cash, market_value, total_equity, buying_power,
         maintenance_excess, is_real_time⟩
  | _ => .error (.invalidType "non-object" "struct AccountBalance")

/-- `AccountBalances` (src/lib.rs lines 947–960): the whole-body balances
response (no envelope field). -/
structure AccountBalances where
  per_currency_balances : List AccountBalance
  combined_balances : List AccountBalance
  sod_per_currency_balances : List AccountBalance
  sod_combined_balances : List AccountBalance
deriving DecidableEq, Repr

def encodeAccountBalances (b : AccountBalances) : Json :=
  .obj [("perCurrencyBalances", .arr (b.per_currency_balances.map encodeAccountBalance)),
        ("combinedBalances", .arr (b.combined_balances.map encodeAccountBalance)),
        ("sodPerCurrencyBalances", .arr (b.sod_per_currency_balances.map encodeAccountBalance)),
        ("sodCombinedBalances", .arr (b.sod_combined_balances.map encodeAccountBalance))]

def decodeAccountBalances (j : Json) : Except DeError AccountBalances :=
  match j with
  | .obj fs => do
    let per_currency_balances ←
      reqField fs "perCurrencyBalances" (decodeList decodeAccountBalance)
    let combined_balances ←
      reqField fs "combinedBalances" (decodeList decodeAccountBalance)
    let sod_per_currency_balances ←
      reqField fs "sodPerCurrencyBalances" (decodeList decodeAccountBalance)
    let sod_combined_balances ←
      reqField fs "sodCombinedBalances" (decodeList decodeAccountBalance)
    .ok ⟨per_currency_balances, combined_balances, sod_per_currency_balances,
         sod_combined_balances⟩
  | _ => .error (.invalidType "non-object" "struct AccountBalances")

/-- `AccountPosition` (src/lib.rs lines 963–1011). -/
structure AccountPosition where
  symbol : String
  symbol_id : U32
  open_quantity : Number
  closed_quantity : Number
  current_market_value : Number
  current_price : Number
  average_entry_price : Number
  closed_profit_and_loss : Number
  open_profit_and_loss : Number
  total_cost : Number
  is_real_time : Bool
  is_under_reorg : Bool
deriving DecidableEq, Repr

def encodeAccountPosition (p : AccountPosition) : Json :=
  .obj [("symbol", .str p.symbol),
        ("symbolId", .num p.symbol_id.val),
        ("openQuantity", encodeNumber p.open_quantity),
        ("closedQuantity", encodeNumber p.closed_quantity),
        ("currentMarketValue", encodeNumber p.current_market_value),
        ("currentPrice", encodeNumber p.current_price),
        ("averageEntryPrice", encodeNumber p.average_entry_price),
        ("closedPnl", encodeNumber p.closed_profit_and_loss),
        ("openPnl", encodeNumber p.open_profit_and_loss),
        ("totalCost", encodeNumber p.total_cost),
        ("isRealTime", .bool p.is_real_time),
        ("isUnderReorg", .bool p.is_under_reorg)]

def decodeAccountPosition (j : Json) : Except DeError AccountPosition :=
  match j with
  | .obj fs => do
    let symbol ← reqField fs "symbol" decodeString
    let symbol_id ← reqField fs "symbolId" decodeU32
    let open_quantity ← reqField fs "openQuantity" decodeNumber
    let closed_quantity ← reqField fs "closedQuantity" decodeNumber
    let current_market_value ← reqField fs "currentMarketValue" decodeNumber
    let current_price ← reqField fs "currentPrice" decodeNumber
    let average_entry_price ← reqField fs "averageEntryPrice" decodeNumber
    let closed_profit_and_loss ← reqField fs "closedPnl" decodeNumber
    let open_profit_and_loss ← reqField fs "openPnl" decodeNumber
    let total_cost ← reqField fs "totalCost" decodeNumber
    let is_real_time ← reqField fs "isRealTime" decodeBool
    let is_under_reorg ← reqField fs "isUnderReorg" decodeBool
    .ok ⟨symbol, symbol_id, open_quantity, closed_quantity,
         current_market_value, current_price, average_entry_price,
         closed_profit_and_loss, open_profit_and_loss, total_cost,
         is_real_time, is_under_reorg⟩
  | _ => .error (.invalidType "non-object" "struct AccountPosition")

/-- `MarketQuote` (src/lib.rs lines 1018–1090). -/
structure MarketQuote where
  symbol : String
  symbol_id : U32
  tier : Option String
  bid_price : Option Number
  bid_size : U32
  ask_price : Option Number
  ask_size : U32
  last_trade_price_tr_hrs : Number
  last_trade_price : Number
  last_trade_size : U32
  last_trade_tick : TickType
  volume : U32
  open_price : Number
  high_price : Number
  low_price : Number
  delay : Bool
  is_halted : Bool
deriving DecidableEq, Repr

/-- Serialize derive for `MarketQuote`: `delay : bool` has only a custom
*de*serializer, so it serializes with the default `bool` serializer — as a
JSON boolean, not as the integer the deserializer expects. -/
def encodeMarketQuote (q : MarketQuote) : Json :=
  .obj [("symbol", .str q.symbol),
        ("symbolId", .num q.symbol_id.val),
        ("tier", encodeOption Json.str q.tier),
        ("bidPrice", encodeOption encodeNumber q.bid_price),
        ("bidSize", .num q.bid_size.val),
        ("askPrice", encodeOption encodeNumber q.ask_price),
        ("askSize", .num q.ask_size.val),
        ("lastTradePriceTrHrs", encodeNumber q.last_trade_price_tr_hrs),
        ("lastTradePrice", encodeNumber q.last_trade_price),
        ("lastTradeSize", .num q.last_trade_size.val),
        ("lastTradeTick", .str q.last_trade_tick.toPayload),
        ("volume", .num q.volume.val),
        ("openPrice", encodeNumber q.open_price),
        ("highPrice", encodeNumber q.high_price),
        ("lowPrice", encodeNumber q.low_price),
        ("delay", .bool q.delay),
        ("isHalted", .bool q.is_halted)]

/-- Deserialize derive for `MarketQuote`: `tier` uses `string_empty_as_none`,
`delay` uses `deserialize_delay`. -/
def decodeMarketQuote (j : Json) : Except DeError MarketQuote :=
  match j with
  | .obj fs => do
    let symbol ← reqField fs "symbol" decodeString
    let symbol_id ← reqField fs "symbolId" decodeU32
    let tier ← emptyAsNoneField fs "tier"
    let bid_price ← optField fs "bidPrice" decodeNumber
    let bid_size ← reqField fs "bidSize" decodeU32
    let ask_price ← optField fs "askPrice" decodeNumber
    let ask_size ← reqField fs "askSize" decodeU32
    let last_trade_price_tr_hrs ← reqField fs "lastTradePriceTrHrs" decodeNumber
    let last_trade_price ← reqField fs "lastTradePrice" decodeNumber
    let last_trade_size ← reqField fs "lastTradeSize" decodeU32
    let last_trade_tick ← reqField fs "lastTradeTick" (decodeEnumWith TickType.ofPayload)
    let volume ← reqField fs "volume" decodeU32
    let open_price ← reqField fs "openPrice" decodeNumber
    let high_price ← reqField fs "highPrice" decodeNumber
    let low_price ← reqField fs "lowPrice" decodeNumber
    let delay ← reqField fs "delay" deserialize_delay
    let is_halted ← reqField fs "isHalted" decodeBool
    .ok ⟨symbol, symbol_id, tier, bid_price, bid_size, ask_price, ask_size,
         last_trade_price_tr_hrs, last_trade_price, last_trade_size,
         last_trade_tick, volume, open_price, high_price, low_price, delay,
         is_halted⟩
  | _ => .error (.invalidType "non-object" "struct MarketQuote")

/-- `SearchEquitySymbol` (src/lib.rs lines 1109–1139). -/
structure SearchEquitySymbol where
  symbol : String
  symbol_id : U32
  description : String
  security_type : SecurityType
  listing_exchange : ListingExchange
  is_quotable : Bool
  is_tradable : Bool
  currency : Currency
deriving DecidableEq, Repr

def encodeSearchEquitySymbol (s : SearchEquitySymbol) : Json :=
  .obj [("symbol", .str s.symbol),
        ("symbolId", .num s.symbol_id.val),
        ("description", .str s.description),
        ("securityType", .str s.security_type.toPayload),
        ("listingExchange", .str s.listing_exchange.toPayload),
        ("isQuotable", .bool s.is_quotable),
        ("isTradable", .bool s.is_tradable),
        ("currency", .str s.currency.toPayload)]

def decodeSearchEquitySymbol (j : Json) : Except DeError SearchEquitySymbol :=
  match j with
  | .obj fs => do
    let symbol ← reqField fs "symbol" decodeString
    let symbol_id ← reqField fs "symbolId" decodeU32
    let description ← reqField fs "description" decodeString
    let security_type ← reqField fs "securityType" (decodeEnumWith securityTypeOfPayload)
    let listing_exchange ←
      reqField fs "listingExchange" (decodeEnumWith ListingExchange.ofPayload)
    let is_quotable ← reqField fs "isQuotable" decodeBool
    let is_tradable ← reqField fs "isTradable" decodeBool
    let currency ← reqField fs "currency" (decodeEnumWith Currency.ofPayload)
    .ok ⟨symbol, symbol_id, description, security_type, listing_exchange,
         is_quotable, is_tradable, currency⟩
  | _ => .error (.invalidType "non-object" "struct SearchEquitySymbol")

/-! ### Request pipeline (src/lib.rs, src/auth.rs) -/

/-- Version of the API (src/lib.rs line 23). -/
def API_VERSION : String := "v1"

/-- Model of a built `reqwest::RequestBuilder`: target URL, headers, query
parameters. -/
structure Request where
  url : String
  headers : List (String × String)
  query : List (String × String)
deriving DecidableEq, Repr

/-- Model of a `reqwest::Response`: HTTP status plus the JSON body the
decoders read. -/
structure HttpResponse where
  status : Nat
  body : Json

/-- `src/lib.rs` lines 74–79 — `get_active_auth`: the current session, or
`NotAuthenticatedError(StatusCode::UNAUTHORIZED)` (401) when none is set. -/
def get_active_auth (auth_info : Option AuthenticationInfo) :
    Except ApiError AuthenticationInfo :=
  match auth_info with
  | some a => .ok a
  | none => .error (.NotAuthenticatedError 401)

/-- `src/lib.rs` lines 371–381 — `get_request_builder`: resolves the session
(failing before any request exists when none is set), then builds the GET
request `{api_server}/{API_VERSION}/{url_suffix}` with the bearer
authorization header. -/
def get_request_builder (auth_info : Option AuthenticationInfo)
    (url_suffix : String) : Except DynError Request := do
  let auth ← Except.mapError DynError.api (get_active_auth auth_info)
  .ok { url := auth.api_server ++ "/" ++ API_VERSION ++ "/" ++ url_suffix
        headers := [("Authorization", "Bearer " ++ auth.access_token)]
        query := [] }

/-- The send-check-decode chain every endpoint method repeats:
`.send().await?` (transport errors boxed unchanged),
`.error_for_status().map_err(|e| wrap_error(e))?`,
`.json::<T>().await?` (decode errors boxed). -/
def dispatch (rb : Request)
    (net : Request → Except ReqwestError HttpResponse)
    (dec : Json → Except DeError α) : Except DynError α := do
  let resp ← Except.mapError DynError.reqwest (net rb)
  match error_for_status resp.status with
  | .error e => .error (wrap_error e)
  | .ok _ => Except.mapError DynError.decode (dec resp.body)

/-- A single-field response envelope (`{"accounts": [...]}` and friends). -/
def envField (name : String) (p : Json → Except DeError α) (j : Json) :
    Except DeError α :=
  match j with
  | .obj fs => reqField fs name p
  | _ => .error (.invalidType "non-object" "response struct")

/-! ### Client endpoint methods (src/lib.rs).  The client's
`RefCell<Option<AuthenticationInfo>>` slot is the explicit first argument;
the `reqwest::Client` is the `net` argument. -/

/-- `Questrade::accounts` (src/lib.rs lines 86–102). -/
def accounts (auth_info : Option AuthenticationInfo)
    (net : Request → Except ReqwestError HttpResponse) :
    Except DynError (List Account) := do
  let rb ← get_request_builder auth_info "accounts"
  dispatch rb net (envField "accounts" (decodeList decodeAccount))

/-- `Questrade::account_activity` (src/lib.rs lines 105–130). -/
def account_activity (auth_info : Option AuthenticationInfo)
    (account_number : String) (start_time end_time : DateTimeUtc)
    (net : Request → Except ReqwestError HttpResponse) :
    Except DynError (List AccountActivity) := do
  let rb ← get_request_builder auth_info
    ("accounts/" ++ account_number ++ "/activities")
  let rb := { rb with query := rb.query ++
    [("startTime", start_time.rfc3339), ("endTime", end_time.rfc3339)] }
  dispatch rb net (envField "activities" (decodeList decodeAccountActivity))

/-- `Questrade::account_orders` (src/lib.rs lines 138–180), with its
optional query parameters and the state-filter literal mapping. -/
def account_orders (auth_info : Option AuthenticationInfo)
    (account_number : String) (start_time end_time : Option DateTimeUtc)
    (state : Option OrderStateFilter)
    (net : Request → Except ReqwestError HttpResponse) :
    Except DynError (List AccountOrder) := do
  let query_params : List (String × String) :=
    (match start_time with
     | some st => [("startTime", st.rfc3339)]
     | none => []) ++
    (match end_time with
     | some et => [("endTime", et.rfc3339)]
     | none => []) ++
    (match state with
     | some s =>
       [("stateFilter",
         match s with
         | .All => "All"
         | .Open => "Open"
         | .Closed => "Closed")]
     | none => [])
  let rb ← get_request_builder auth_info
    ("accounts/" ++ account_number ++ "/orders")
  let rb := { rb with query := rb.query ++ query_params }
  dispatch rb net (envField "orders" (decodeList decodeAccountOrder))

/-- `Questrade::account_order` (src/lib.rs lines 183–205):
`Ok(response.orders.pop())` — `Vec::pop` removes and returns the **last**
element of the decoded array (`List.getLast?`). -/
def account_order (auth_info : Option AuthenticationInfo)
    (account_number : String) (order_id : U32)
    (net : Request → Except ReqwestError HttpResponse) :
    Except DynError (Option AccountOrder) := do
  let rb ← get_request_builder auth_info
    ("accounts/" ++ account_number ++ "/orders/" ++ toString order_id)
  let orders ← dispatch rb net (envField "orders" (decodeList decodeAccountOrder))
  .ok orders.getLast?

/-- `Questrade::account_executions` (src/lib.rs lines 212–243). -/
def account_executions (auth_info : Option AuthenticationInfo)
    (account_number : String) (start_time end_time : Option DateTimeUtc)
    (net : Request → Except ReqwestError HttpResponse) :
    Except DynError (List AccountExecution) := do
  let query_params : List (String × String) :=
    (match start_time with
     | some st => [("startTime", st.rfc3339)]
     | none => []) ++
    (match end_time with
     | some et => [("endTime", et.rfc3339)]
     | none => [])
  let rb ← get_request_builder auth_info
    ("accounts/" ++ account_number ++ "/executions")
  let rb := { rb with query := rb.query ++ query_params }
  dispatch rb net (envField "executions" (decodeList decodeAccountExecution))

/-- `Questrade::account_balance` (src/lib.rs lines 246–260): whole-body
decode, no envelope field. -/
def account_balance (auth_info : Option AuthenticationInfo)
    (account_number : String)
    (net : Request → Except ReqwestError HttpResponse) :
    Except DynError AccountBalances := do
  let rb ← get_request_builder auth_info
    ("accounts/" ++ account_number ++ "/balances")
  dispatch rb net decodeAccountBalances

/-- `Questrade::account_positions` (src/lib.rs lines 263–282). -/
def account_positions (auth_info : Option AuthenticationInfo)
    (account_number : String)
    (net : Request → Except ReqwestError HttpResponse) :
    Except DynError (List AccountPosition) := do
  let rb ← get_request_builder auth_info
    ("accounts/" ++ account_number ++ "/positions")
  dispatch rb net (envField "positions" (decodeList decodeAccountPosition))

/-- `Questrade::market_quote` (src/lib.rs lines 296–315): symbol ids joined
by commas into the `ids` query parameter. -/
def market_quote (auth_info : Option AuthenticationInfo) (ids : List U32)
    (net : Request → Except ReqwestError HttpResponse) :
    Except DynError (List MarketQuote) := do
  let joined := String.intercalate "," (ids.map toString)
  let rb ← get_request_builder auth_info "markets/quotes"
  let rb := { rb with query := rb.query ++ [("ids", joined)] }
  dispatch rb net (envField "quotes" (decodeList decodeMarketQuote))

/-- `Questrade::symbol_search` (src/lib.rs lines 326–347).  The Rust
parameter named like the Lean keyword is rendered `pfx`. -/
def symbol_search (auth_info : Option AuthenticationInfo) (pfx : String)
    (offset : U32)
    (net : Request → Except ReqwestError HttpResponse) :
    Except DynError (List SearchEquitySymbol) := do
  let rb ← get_request_builder auth_info "symbols/search"
  let rb := { rb with query := rb.query ++
    [("prefix", pfx), ("offset", toString offset)] }
  dispatch rb net (envField "symbols" (decodeList decodeSearchEquitySymbol))

/-- `Questrade::time` (src/lib.rs lines 352–368). -/
def time (auth_info : Option AuthenticationInfo)
    (net : Request → Except ReqwestError HttpResponse) :
    Except DynError DateTimeUtc := do
  let rb ← get_request_builder auth_info "time"
  dispatch rb net (envField "time" decodeDateTime)

/-! ### Token exchange (src/auth.rs) and the client's session slot -/

/-- The POST request `refresh_access_token` builds (src/auth.rs lines
54–64): environment-selected URL, `grant_type`/`refresh_token` query
parameters, zero content length, JSON accept header. -/
def token_exchange_request (refresh_token : String) (is_demo : Bool) :
    Request :=
  { url := get_url is_demo
    headers := [("Content-Length", "0"), ("Accept", "application/json")]
    query := [("grant_type", "refresh_token"),
              ("refresh_token", refresh_token)] }

/-- `AuthenticationInfo::refresh_access_token` (src/auth.rs lines 41–77):
send, `error_for_status()?` (propagated unchanged — **no** `wrap_error`
here), decode the response, build the session with `sessionOfResponse` at
the response-capture instant `now`. -/
def refresh_access_token (refresh_token : String) (is_demo : Bool)
    (net : Request → Except ReqwestError HttpResponse) (now : Int) :
    Except DynError AuthenticationInfo := do
  let resp ← Except.mapError DynError.reqwest
    (net (token_exchange_request refresh_token is_demo))
  match error_for_status resp.status with
  | .error e => .error (DynError.reqwest e)
  | .ok _ => do
    let response ← Except.mapError DynError.decode
      (decodeAuthenticationInfoResponse resp.body)
    .ok (sessionOfResponse response now is_demo)

/-- `AuthenticationInfo::authenticate` (src/auth.rs lines 29–35): delegates
to `refresh_access_token`. -/
def AuthenticationInfo.authenticate (refresh_token : String)
    (is_demo : Bool) (net : Request → Except ReqwestError HttpResponse)
    (now : Int) : Except DynError AuthenticationInfo :=
  refresh_access_token refresh_token is_demo net now

/-- `Questrade::authenticate` (src/lib.rs lines 56–66): the `?` propagates
any exchange failure **before** `RefCell::replace` runs, so the stored slot
changes only on success, and then wholesale. Returns the new slot contents
and the call's result. -/
def Questrade_authenticate (auth_info : Option AuthenticationInfo)
    (refresh_token : String) (is_demo : Bool)
    (net : Request → Except ReqwestError HttpResponse) (now : Int) :
    Option AuthenticationInfo × Except DynError Unit :=
  match AuthenticationInfo.authenticate refresh_token is_demo net now with
  | .error e => (auth_info, .error e)
  | .ok info => (some info, .ok ())

/-! ### Small reduction lemmas for `Except` -/

theorem bind_ok_eq (a : α) (f : α → Except ε β) :
    (Except.ok a : Except ε α) >>= f = f a := rfl

theorem bind_error_eq (e : ε) (f : α → Except ε β) :
    (Except.error e : Except ε α) >>= f = .error e := rfl

theorem mapError_ok_eq (f : ε → ε') (a : α) :
    Except.mapError f (Except.ok a : Except ε α) = .ok a := rfl

theorem mapError_error_eq (f : ε → ε') (e : ε) :
    Except.mapError f (Except.error e : Except ε α) = .error (f e) := rfl

/-- The common success path of `dispatch`: a 200 response whose body decodes
yields the decoded value. -/
theorem dispatch_ok (rb : Request) (body : Json) (a : α)
    (dec : Json → Except DeError α)
    (net : Request → Except ReqwestError HttpResponse)
    (hnet : net rb = .ok ⟨200, body⟩)
    (hdec : dec body = .ok a) :
    dispatch rb net dec = .ok a := by
  unfold dispatch
  rw [hnet]
  simp only [mapError_ok_eq, bind_ok_eq]
  simp only [error_for_status]
  norm_num
  simp only [hdec, mapError_ok_eq]

/-! ### Facts about `trim_end_matches('/')` -/

theorem head_dropWhile_false (p : Char → Bool) :
    ∀ (l : List Char) (a : Char), (l.dropWhile p).head? = some a → p a = false := by
  intro l
  induction l with
  | nil => intro a h; simp [List.dropWhile] at h
  | cons x xs ih =>
    intro a h
    by_cases hx : p x
    · rw [List.dropWhile_cons_of_pos hx] at h
      exact ih a h
    · rw [List.dropWhile_cons_of_neg hx] at h
      simp at h
      subst h
      simpa using hx

/-- `trim_end_matches('/')` splits the input into the trimmed prefix plus a
run of slashes, and the trimmed prefix never ends in a slash. -/
theorem trimEndSlash_char (s : String) :
    (∃ k, s = trimEndSlash s ++ String.mk (List.replicate k '/')) ∧
      (trimEndSlash s).data.getLast? ≠ some '/' := by
  constructor
  · refine ⟨(s.data.reverse.takeWhile (fun c => c = '/')).length, ?_⟩
    have hrep : s.data.reverse.takeWhile (fun c => c = '/') =
        List.replicate (s.data.reverse.takeWhile (fun c => c = '/')).length '/' := by
      apply List.eq_replicate_of_mem
      intro b hb
      simpa using List.mem_takeWhile_imp hb
    have hsplit := List.takeWhile_append_dropWhile
      (p := fun c => decide (c = '/')) (l := s.data.reverse)
    have hdata : s.data = trimEndSlashList s.data ++
        List.replicate (s.data.reverse.takeWhile (fun c => c = '/')).length '/' := by
      have h2 := congrArg List.reverse hsplit
      rw [List.reverse_append, List.reverse_reverse] at h2
      conv_lhs => rw [← h2]
      unfold trimEndSlashList
      congr 1
      conv_lhs => rw [hrep]
      exact List.reverse_replicate _ _
    have hstr : (trimEndSlash s ++ String.mk (List.replicate
        (s.data.reverse.takeWhile (fun c => c = '/')).length '/') : String) =
        String.mk (trimEndSlashList s.data ++
          List.replicate (s.data.reverse.takeWhile (fun c => c = '/')).length '/') := rfl
    rw [hstr, ← hdata]
  · intro hc
    unfold trimEndSlash trimEndSlashList at hc
    simp only at hc
    rw [List.getLast?_reverse] at hc
    have := head_dropWhile_false (fun c => c = '/') s.data.reverse '/' hc
    simp at this

/-! ### Claim theorems -/

/-- C1: for every HTTP response whose status is 401 or 403, `wrap_error`
replaces the transport error with `NotAuthenticatedError` carrying that same
status; for every other status error, the original transport error is
returned unchanged. -/
theorem wrap_error_classification (status : Nat) :
    (status = 401 ∨ status = 403 →
      wrap_error (.status status) = .api (.NotAuthenticatedError status)) ∧
    (status ≠ 401 → status ≠ 403 →
      wrap_error (.status status) = .reqwest (.status status)) := by
  constructor
  · rintro (rfl | rfl) <;> rfl
  · intro h1 h3
    simp [wrap_error, ReqwestError.is_status, h1, h3]

theorem wrap_error_classification_witness :
    wrap_error (.status 401) = .api (.NotAuthenticatedError 401) ∧
    wrap_error (.status 403) = .api (.NotAuthenticatedError 403) ∧
    wrap_error (.status 500) = .reqwest (.status 500) :=
  ⟨(wrap_error_classification 401).1 (Or.inl rfl),
   (wrap_error_classification 403).1 (Or.inr rfl),
   (wrap_error_classification 500).2 (by decide) (by decide)⟩

/-- C2: with no session set (`none` in the slot), every one of the ten
authenticated endpoint methods fails with `NotAuthenticatedError 401`, for
**every** transport `net` — i.e. before any request is built or sent. -/
theorem no_session_all_methods_not_authenticated
    (net : Request → Except ReqwestError HttpResponse)
    (account_number : String) (st et : DateTimeUtc)
    (ost oet : Option DateTimeUtc) (filt : Option OrderStateFilter)
    (order_id : U32) (ids : List U32) (pfx : String) (offset : U32) :
    accounts none net = .error (.api (.NotAuthenticatedError 401)) ∧
    account_activity none account_number st et net =
      .error (.api (.NotAuthenticatedError 401)) ∧
    account_orders none account_number ost oet filt net =
      .error (.api (.NotAuthenticatedError 401)) ∧
    account_order none account_number order_id net =
      .error (.api (.NotAuthenticatedError 401)) ∧
    account_executions none account_number ost oet net =
      .error (.api (.NotAuthenticatedError 401)) ∧
    account_balance none account_number net =
      .error (.api (.NotAuthenticatedError 401)) ∧
    account_positions none account_number net =
      .error (.api (.NotAuthenticatedError 401)) ∧
    market_quote none ids net = .error (.api (.NotAuthenticatedError 401)) ∧
    symbol_search none pfx offset net =
      .error (.api (.NotAuthenticatedError 401)) ∧
    time none net = .error (.api (.NotAuthenticatedError 401)) :=
  ⟨rfl, rfl, rfl, rfl, rfl, rfl, rfl, rfl, rfl, rfl⟩

/-- C3: for every successful token-exchange response, the session returned by
`authenticate` copies both tokens, sets `expires_at` to the response-capture
instant plus `expires_in`, keeps the `is_demo` flag, and `api_server` is the
response value with every trailing slash stripped (witnessed by the
slash-run decomposition and the no-trailing-slash fact). -/
theorem authenticate_session_fields (refresh_token : String) (is_demo : Bool)
    (now : Int) (net : Request → Except ReqwestError HttpResponse)
    (body : Json) (response : AuthenticationInfoResponse)
    (hnet : ∀ r, net r = .ok ⟨200, body⟩)
    (hdec : decodeAuthenticationInfoResponse body = .ok response) :
    AuthenticationInfo.authenticate refresh_token is_demo net now =
      .ok (sessionOfResponse response now is_demo) ∧
    (sessionOfResponse response now is_demo).refresh_token =
      response.refresh_token ∧
    (sessionOfResponse response now is_demo).access_token =
      response.access_token ∧
    (sessionOfResponse response now is_demo).expires_at =
      now + response.expires_in ∧
    (sessionOfResponse response now is_demo).is_demo = is_demo ∧
    (∃ k, response.api_server =
      (sessionOfResponse response now is_demo).api_server ++
        String.mk (List.replicate k '/')) ∧
    (sessionOfResponse response now is_demo).api_server.data.getLast? ≠
      some '/' := by
  refine ⟨?_, rfl, rfl, rfl, rfl,
    (trimEndSlash_char response.api_server).1,
    (trimEndSlash_char response.api_server).2⟩
  unfold AuthenticationInfo.authenticate refresh_access_token
  rw [hnet]
  simp only [mapError_ok_eq, bind_ok_eq]
  simp only [error_for_status]
  norm_num
  simp only [hdec, mapError_ok_eq, bind_ok_eq]

/-- A concrete token-exchange response body (note the trailing slash on the
server URL). -/
def c3Body : Json :=
  .obj [("refresh_token", .str "r2"), ("access_token", .str "a2"),
        ("expires_in", .num 1800),
        ("api_server", .str "https://api01.iq.questrade.com/")]

/-- The decoded form of `c3Body`. -/
def c3Response : AuthenticationInfoResponse :=
  ⟨"r2", "a2", 1800, "https://api01.iq.questrade.com/"⟩

theorem authenticate_session_fields_witness :
    AuthenticationInfo.authenticate "rt0" true (fun _ => .ok ⟨200, c3Body⟩)
        1000 = .ok (sessionOfResponse c3Response 1000 true) ∧
    (sessionOfResponse c3Response 1000 true).refresh_token =
      c3Response.refresh_token ∧
    (sessionOfResponse c3Response 1000 true).access_token =
      c3Response.access_token ∧
    (sessionOfResponse c3Response 1000 true).expires_at =
      1000 + c3Response.expires_in ∧
    (sessionOfResponse c3Response 1000 true).is_demo = true ∧
    (∃ k, c3Response.api_server =
      (sessionOfResponse c3Response 1000 true).api_server ++
        String.mk (List.replicate k '/')) ∧
    (sessionOfResponse c3Response 1000 true).api_server.data.getLast? ≠
      some '/' :=
  authenticate_session_fields "rt0" true 1000 (fun _ => .ok ⟨200, c3Body⟩)
    c3Body c3Response (fun _ => rfl) rfl

/-- Whether a decode result is an `invalid type` serde error (the category
the spec's `InvalidType(field, expectedType)` taxonomy entry names; in the
code it is `ApiError::InvalidTypeError`, which no decode path ever raises). -/
def isInvalidTypeResult (r : Except DeError Bool) : Bool :=
  match r with
  | .error (.invalidType _ _) => true
  | _ => false

/-- C5 counterexample: on the integer `2` the delay decoder fails with a
**custom-message** serde error (the quotes of the original Rust message are
elided here), not with an invalid-type error — and `ApiError::InvalidTypeError`
does not occur in the decode path at all. -/
theorem deserialize_delay_custom_error_counterexample :
    deserialize_delay (Json.num 2) =
      .error (.custom "expected delay to be 0 or 1. Got: 2") ∧
    isInvalidTypeResult (deserialize_delay (Json.num 2)) = false :=
  ⟨rfl, rfl⟩

/-- Whether a delay-decode result succeeded. -/
def delayDecodeIsOk (r : Except DeError Bool) : Bool :=
  match r with
  | .ok _ => true
  | .error _ => false

/-- C5 (amended): the delay decoder maps integer `0` to `false` and `1` to
`true`, and fails the decode for every other integer — no clamping or
defaulting — though with a custom-message error rather than the claimed
`InvalidType` error. -/
theorem deserialize_delay_amended :
    deserialize_delay (Json.num 0) = .ok false ∧
    deserialize_delay (Json.num 1) = .ok true ∧
    ∀ n : Int, n ≠ 0 → n ≠ 1 →
      delayDecodeIsOk (deserialize_delay (Json.num n)) = false := by
  refine ⟨rfl, rfl, ?_⟩
  intro n h0 h1
  by_cases h : 0 ≤ n ∧ n ≤ 255
  · have h2 : decodeU8 (Json.num n) = .ok n.toNat := by simp [decodeU8, h]
    obtain ⟨m, hm⟩ : ∃ m, n.toNat = m + 2 := ⟨n.toNat - 2, by omega⟩
    unfold deserialize_delay
    rw [h2, hm]
    rfl
  · have h2 : decodeU8 (Json.num n) = .error (.invalidValue (toString n) "u8") := by
      simp [decodeU8, h]
    unfold deserialize_delay
    rw [h2]
    rfl

theorem deserialize_delay_amended_witness :
    delayDecodeIsOk (deserialize_delay (Json.num 2)) = false :=
  deserialize_delay_amended.2.2 2 (by decide) (by decide)

/-- C9: `Questrade::authenticate` leaves the stored session slot unchanged
whenever the token exchange fails, and replaces it wholesale with the new
session on success — for every prior slot content and every transport. -/
theorem authenticate_replaces_only_on_success
    (auth_info : Option AuthenticationInfo) (refresh_token : String)
    (is_demo : Bool) (net : Request → Except ReqwestError HttpResponse)
    (now : Int) :
    (∀ e, AuthenticationInfo.authenticate refresh_token is_demo net now =
        .error e →
      Questrade_authenticate auth_info refresh_token is_demo net now =
        (auth_info, .error e)) ∧
    (∀ info, AuthenticationInfo.authenticate refresh_token is_demo net now =
        .ok info →
      Questrade_authenticate auth_info refresh_token is_demo net now =
        (some info, .ok ())) := by
  constructor
  · intro e he; unfold Questrade_authenticate; rw [he]
  · intro info hi; unfold Questrade_authenticate; rw [hi]

/-- A pre-existing session used to observe that a failed exchange leaves the
slot untouched. -/
def preAuth : AuthenticationInfo :=
  ⟨"old-refresh", "old-access", 17, "https://api00.iq.questrade.com", false⟩

theorem authenticate_replaces_only_on_success_witness :
    Questrade_authenticate (some preAuth) "rt0" true
        (fun _ => .error (.other "connection refused")) 5 =
      (some preAuth, .error (.reqwest (.other "connection refused"))) ∧
    Questrade_authenticate (some preAuth) "rt0" true
        (fun _ => .ok ⟨200, c3Body⟩) 5 =
      (some (sessionOfResponse c3Response 5 true), .ok ()) :=
  ⟨(authenticate_replaces_only_on_success (some preAuth) "rt0" true
      (fun _ => .error (.other "connection refused")) 5).1 _ rfl,
   (authenticate_replaces_only_on_success (some preAuth) "rt0" true
      (fun _ => .ok ⟨200, c3Body⟩) 5).2 _ rfl⟩

/-- A concrete symbol-search result with an empty `listingExchange`. -/
def c10SymbolJson : Json :=
  .obj [("symbol", .str "BMO"), ("symbolId", .num 9292),
        ("description", .str "BANK OF MONTREAL"),
        ("securityType", .str "Stock"), ("listingExchange", .str ""),
        ("isQuotable", .bool true), ("isTradable", .bool true),
        ("currency", .str "CAD")]

/-- C10: decoding the empty string as a `ListingExchange` succeeds with the
dedicated `None` ("absent exchange") variant, and a whole symbol-search
record with `listingExchange = ""` therefore decodes successfully. -/
theorem listing_exchange_empty_string_decodes :
    decodeEnumWith ListingExchange.ofPayload (Json.str "") = .ok .None ∧
    decodeSearchEquitySymbol c10SymbolJson =
      .ok ⟨"BMO", 9292, "BANK OF MONTREAL", .Stock, .None, true, true, .CAD⟩ :=
  ⟨rfl, rfl⟩

/-! ### Round-trip lemmas: every enum decodes its own payload name -/

theorem decodeEnumWith_toPayload (ofS : String → Option α) (toS : α → String)
    (h : ∀ v, ofS (toS v) = some v) (v : α) :
    decodeEnumWith ofS (Json.str (toS v)) = .ok v := by
  simp [decodeEnumWith, h]

theorem accountType_payload_inverse (v : AccountType) :
    AccountType.ofPayload v.toPayload = some v := by cases v <;> rfl

theorem accountStatus_payload_inverse (v : AccountStatus) :
    AccountStatus.ofPayload v.toPayload = some v := by cases v <;> rfl

theorem clientAccountType_payload_inverse (v : ClientAccountType) :
    ClientAccountType.ofPayload v.toPayload = some v := by cases v <;> rfl

theorem orderSide_payload_inverse (v : OrderSide) :
    OrderSide.ofPayload v.toPayload = some v := by cases v <;> rfl

theorem orderType_payload_inverse (v : OrderType) :
    OrderType.ofPayload v.toPayload = some v := by cases v <;> rfl

theorem orderTimeInForce_payload_inverse (v : OrderTimeInForce) :
    OrderTimeInForce.ofPayload v.toPayload = some v := by cases v <;> rfl

theorem orderState_payload_inverse (v : OrderState) :
    OrderState.ofPayload v.toPayload = some v := by cases v <;> rfl

theorem currency_payload_inverse (v : Currency) :
    Currency.ofPayload v.toPayload = some v := by cases v <;> rfl

theorem tickType_payload_inverse (v : TickType) :
    TickType.ofPayload v.toPayload = some v := by cases v <;> rfl

theorem listingExchange_payload_inverse (v : ListingExchange) :
    ListingExchange.ofPayload v.toPayload = some v := by cases v <;> rfl

theorem securityTypeOfPayload_toPayload (v : SecurityType) :
    securityTypeOfPayload v.toPayload = some v := by cases v <;> rfl

/-! ### Round-trip lemmas for the primitive codecs -/

theorem decodeU32_roundtrip (u : U32) : decodeU32 (.num u.val) = .ok u := by
  have h := u.isLt
  simp only [decodeU32]
  rw [dif_pos (by constructor <;> omega)]
  congr 1

theorem decodeNumber_enc (n : Number) : decodeNumber (encodeNumber n) = .ok n := by
  cases n; rfl

theorem decodeDateTime_enc (d : DateTimeUtc) :
    decodeDateTime (encodeDateTime d) = .ok d := by
  cases d; rfl

theorem nullable_number_enc_roundtrip (n : Number) :
    deserialize_nullable_number (encodeNumber n) = .ok n := by
  cases n; rfl

theorem decodeOption_num_roundtrip (v : Option Number) :
    decodeOption decodeNumber (encodeOption encodeNumber v) = .ok v := by
  cases v <;> rfl

theorem decodeOption_date_roundtrip (v : Option DateTimeUtc) :
    decodeOption decodeDateTime (encodeOption encodeDateTime v) = .ok v := by
  cases v <;> rfl

theorem decodeOption_str_roundtrip (v : Option String) :
    decodeOption decodeString (encodeOption Json.str v) = .ok v := by
  cases v <;> rfl

/-- The empty-string-as-absent codec is a right inverse of default
serialization only away from `some ""` (which serializes to `""` and
collapses to `none` on decode). -/
theorem emptyAsNone_roundtrip (v : Option String) (hv : v ≠ some "") :
    string_empty_as_none (encodeOption Json.str v) = .ok v := by
  cases v with
  | none => rfl
  | some s =>
    have hs : s ≠ "" := fun h => hv (by rw [h])
    simp [encodeOption, string_empty_as_none, hs]

theorem mapM_loop_decode (dec : Json → Except DeError α) (enc : α → Json)
    (h : ∀ x, dec (enc x) = .ok x) :
    ∀ (l : List α) (acc : List α),
      List.mapM.loop dec (l.map enc) acc = .ok (acc.reverse ++ l) := by
  intro l
  induction l with
  | nil => intro acc; simp [List.mapM.loop]; rfl
  | cons x xs ih =>
    intro acc
    simp only [List.map_cons, List.mapM.loop, h, bind_ok_eq]
    rw [ih (x :: acc)]
    simp

/-! ### Record-level round trips (the helper lemmas behind C6) -/

theorem account_roundtrip (a : Account) :
    decodeAccount (encodeAccount a) = .ok a := by
  simp [decodeAccount, encodeAccount, reqField, lookupField,
    decodeEnumWith_toPayload _ _ accountType_payload_inverse,
    decodeEnumWith_toPayload _ _ accountStatus_payload_inverse,
    decodeEnumWith_toPayload _ _ clientAccountType_payload_inverse,
    decodeBool, decodeString, bind_ok_eq]

theorem accountActivity_roundtrip (a : AccountActivity) :
    decodeAccountActivity (encodeAccountActivity a) = .ok a := by
  simp [decodeAccountActivity, encodeAccountActivity, reqField, lookupField,
    decodeString, decodeNumber_enc, decodeDateTime_enc, decodeU32_roundtrip,
    bind_ok_eq]

theorem accountOrder_roundtrip (o : AccountOrder)
    (h1 : o.rejection_reason ≠ some "") (h2 : o.notes ≠ some "")
    (h3 : o.secondary_route ≠ some "") (h4 : o.venue_holding_order ≠ some "") :
    decodeAccountOrder (encodeAccountOrder o) = .ok o := by
  simp [decodeAccountOrder, encodeAccountOrder, reqField, reqFieldAlias,
    optField, emptyAsNoneField, lookupField, decodeString, decodeBool,
    decodeNumber_enc, decodeDateTime_enc, nullable_number_enc_roundtrip,
    bind_ok_eq, decodeU32_roundtrip,
    decodeOption_num_roundtrip, decodeOption_date_roundtrip,
    decodeOption_str_roundtrip,
    emptyAsNone_roundtrip _ h1, emptyAsNone_roundtrip _ h2,
    emptyAsNone_roundtrip _ h3, emptyAsNone_roundtrip _ h4,
    decodeEnumWith_toPayload _ _ orderSide_payload_inverse,
    decodeEnumWith_toPayload _ _ orderType_payload_inverse,
    decodeEnumWith_toPayload _ _ orderTimeInForce_payload_inverse,
    decodeEnumWith_toPayload _ _ orderState_payload_inverse]

theorem accountExecution_roundtrip (e : AccountExecution)
    (h : e.notes ≠ some "") :
    decodeAccountExecution (encodeAccountExecution e) = .ok e := by
  simp [decodeAccountExecution, encodeAccountExecution, reqField,
    emptyAsNoneField, lookupField, decodeString, decodeBool, decodeNumber_enc,
    decodeDateTime_enc, decodeU32_roundtrip, bind_ok_eq,
    emptyAsNone_roundtrip _ h,
    decodeEnumWith_toPayload _ _ orderSide_payload_inverse]

theorem accountBalance_roundtrip (b : AccountBalance) :
    decodeAccountBalance (encodeAccountBalance b) = .ok b := by
  simp [decodeAccountBalance, encodeAccountBalance, reqField, lookupField,
    decodeBool, decodeNumber_enc, bind_ok_eq,
    decodeEnumWith_toPayload _ _ currency_payload_inverse]

theorem accountBalances_roundtrip (b : AccountBalances) :
    decodeAccountBalances (encodeAccountBalances b) = .ok b := by
  simp [decodeAccountBalances, encodeAccountBalances, reqField, lookupField,
    decodeList, bind_ok_eq,
    mapM_loop_decode _ _ accountBalance_roundtrip]

theorem accountPosition_roundtrip (p : AccountPosition) :
    decodeAccountPosition (encodeAccountPosition p) = .ok p := by
  simp [decodeAccountPosition, encodeAccountPosition, reqField, lookupField,
    decodeString, decodeBool, decodeNumber_enc, decodeU32_roundtrip,
    bind_ok_eq]

theorem searchEquitySymbol_roundtrip (s : SearchEquitySymbol) :
    decodeSearchEquitySymbol (encodeSearchEquitySymbol s) = .ok s := by
  simp [decodeSearchEquitySymbol, encodeSearchEquitySymbol, reqField,
    lookupField, decodeString, decodeBool, decodeU32_roundtrip, bind_ok_eq,
    decodeEnumWith_toPayload _ _ securityTypeOfPayload_toPayload,
    decodeEnumWith_toPayload _ _ listingExchange_payload_inverse,
    decodeEnumWith_toPayload _ _ currency_payload_inverse]

/-- Every `MarketQuote` fails to decode its own serialization: `delay`
serializes as a JSON boolean, but `deserialize_delay` decodes a `u8`. -/
theorem marketQuote_roundtrip_fails (q : MarketQuote) :
    decodeMarketQuote (encodeMarketQuote q) =
      .error (.invalidType "non-integer" "u8") := by
  obtain ⟨w, hw⟩ : ∃ w, string_empty_as_none (encodeOption Json.str q.tier) = .ok w := by
    cases hq : q.tier with
    | none => exact ⟨none, rfl⟩
    | some s =>
      by_cases hs : s = ""
      · exact ⟨none, by simp [encodeOption, string_empty_as_none, hs]⟩
      · exact ⟨some s, by simp [encodeOption, string_empty_as_none, hs]⟩
  simp [decodeMarketQuote, encodeMarketQuote, reqField, optField,
    emptyAsNoneField, lookupField, decodeString, decodeBool, decodeNumber_enc,
    decodeU32_roundtrip, decodeOption_num_roundtrip, hw, bind_ok_eq,
    decodeEnumWith_toPayload _ _ tickType_payload_inverse,
    deserialize_delay, decodeU8, bind_error_eq]

/-! ### Concrete order payloads (shared by several claim theorems) -/

/-- A concrete `AccountOrder` payload: `id` plus the five nullable-numeric
slots, the four empty-string-as-absent slots and the (non-convention)
`primaryRoute` value vary; everything else is fixed. -/
def mkOrderJson (id : Int) (openQ filledQ cancelQ commCh placeComm : Json)
    (reason notesJ secRoute venue : Json) (primaryR : String) : Json :=
  .obj [("id", .num id),
        ("symbol", .str "AAPL"),
        ("symbolId", .num 8049),
        ("totalQuantity", .num 100),
        ("openQuantity", openQ),
        ("filledQuantity", filledQ),
        ("canceledQuantity", cancelQ),
        ("side", .str "Buy"),
        ("orderType", .str "Limit"),
        ("limitPrice", .null),
        ("stopPrice", .null),
        ("isAllOrNone", .bool false),
        ("isAnonymous", .bool false),
        ("icebergQuantity", .null),
        ("minQuantity", .null),
        ("avgExecPrice", .null),
        ("lastExecPrice", .null),
        ("source", .str "TradingAPI"),
        ("timeInForce", .str "Day"),
        ("gtdDate", .null),
        ("state", .str "Canceled"),
        ("clientReasonStr", reason),
        ("chainId", .num 7),
        ("creationTime", .str "2014-10-23T20:03:41Z"),
        ("updateTime", .str "2014-10-23T20:03:42Z"),
        ("notes", notesJ),
        ("primaryRoute", .str primaryR),
        ("secondaryRoute", secRoute),
        ("orderRoute", .str "LAMP"),
        ("venueHoldingOrder", venue),
        ("comissionCharged", commCh),
        ("exchangeOrderId", .str "XS1"),
        ("isSignificantShareHolder", .bool false),
        ("isInsider", .bool false),
        ("isLimitOffsetInDollar", .bool false),
        ("userId", .num 3000124),
        ("placementCommission", placeComm),
        ("strategyType", .str "SingleLeg"),
        ("triggerStopPrice", .null),
        ("orderGroupId", .num 0),
        ("orderClass", .null)]

/-- The decoded form of `mkOrderJson` (same varying slots). -/
def mkOrder (id : U32) (oq fq cq cc pc : Number)
    (rr nt sr vh : Option String) (primaryR : String) : AccountOrder :=
  { id := id, symbol := "AAPL", symbol_id := 8049, total_quantity := ⟨100⟩,
    open_quantity := oq, filled_quantity := fq, canceled_quantity := cq,
    side := .Buy, order_type := .Limit, limit_price := none,
    stop_price := none, is_all_or_none := false, is_anonymous := false,
    iceberg_quantity := none, min_quantity := none,
    avg_execution_price := none, last_execution_price := none,
    source := "TradingAPI", time_in_force := .Day, good_till_date := none,
    state := .Canceled, rejection_reason := rr, chain_id := 7,
    creation_time := ⟨"2014-10-23T20:03:41Z"⟩,
    update_time := ⟨"2014-10-23T20:03:42Z"⟩,
    notes := nt, primary_route := primaryR, secondary_route := sr,
    order_route := "LAMP", venue_holding_order := vh,
    commission_charged := cc, exchange_order_id := "XS1",
    is_significant_shareholder := false, is_insider := false,
    is_limit_offset_in_dollars := false, user_id := 3000124,
    placement_commission := pc, strategy_type := "SingleLeg",
    trigger_stop_price := none, order_group_id := 0, order_class := none }

def c4Json1 : Json :=
  mkOrderJson 1 (.num 100) (.num 0) (.num 0) (.num 0) (.num 0)
    (.str "") (.str "") (.str "") (.str "") "AUTO"

def c4Json2 : Json :=
  mkOrderJson 2 (.num 100) (.num 0) (.num 0) (.num 0) (.num 0)
    (.str "") (.str "") (.str "") (.str "") "AUTO"

def c4Order1 : AccountOrder :=
  mkOrder 1 ⟨100⟩ ⟨0⟩ ⟨0⟩ ⟨0⟩ ⟨0⟩ none none none none "AUTO"

def c4Order2 : AccountOrder :=
  mkOrder 2 ⟨100⟩ ⟨0⟩ ⟨0⟩ ⟨0⟩ ⟨0⟩ none none none none "AUTO"

/-- A transport whose single-order response carries **two** orders. -/
def c4Net : Request → Except ReqwestError HttpResponse :=
  fun _ => .ok ⟨200, .obj [("orders", .arr [c4Json1, c4Json2])]⟩

/-- C4 counterexample: on a two-element response array the single-order
lookup returns the **last** element (`Vec::pop`), not the first: the body
decodes to `[c4Order1, c4Order2]` whose first element is `c4Order1`, yet
`account_order` yields `c4Order2 ≠ c4Order1`. -/
theorem account_order_first_element_counterexample :
    envField "orders" (decodeList decodeAccountOrder)
        (.obj [("orders", .arr [c4Json1, c4Json2])]) = .ok [c4Order1, c4Order2] ∧
    [c4Order1, c4Order2].head? = some c4Order1 ∧
    account_order (some preAuth) "123456" 42 c4Net = .ok (some c4Order2) ∧
    c4Order2 ≠ c4Order1 :=
  ⟨rfl, rfl, rfl, by decide⟩

/-- C4 (amended): for every decodable response array, `account_order` yields
the **last** element of the array when it is non-empty and `none` when it is
empty — never an error for an id that is not found. -/
theorem account_order_yields_last_or_none (a : AuthenticationInfo)
    (acct : String) (oid : U32) (body : Json) (orders : List AccountOrder)
    (net : Request → Except ReqwestError HttpResponse)
    (hnet : ∀ r, net r = .ok ⟨200, body⟩)
    (hdec : envField "orders" (decodeList decodeAccountOrder) body = .ok orders) :
    account_order (some a) acct oid net = .ok orders.getLast? := by
  unfold account_order get_request_builder get_active_auth
  simp only [mapError_ok_eq, bind_ok_eq]
  rw [dispatch_ok _ body orders _ net (hnet _) hdec, bind_ok_eq]

theorem account_order_yields_last_or_none_witness :
    account_order (some preAuth) "123456" 42
        (fun _ => .ok ⟨200, .obj [("orders", .arr [])]⟩) = .ok none :=
  account_order_yields_last_or_none preAuth "123456" 42
    (.obj [("orders", .arr [])]) [] _ (fun _ => rfl) rfl

/-- A quote whose round trip is inspected in the C6 counterexample. -/
def c6Quote : MarketQuote :=
  ⟨"AAPL", 8049, none, some ⟨500⟩, 100, none, 0, ⟨499⟩, ⟨500⟩, 10, .Up,
   1000, ⟨498⟩, ⟨501⟩, ⟨497⟩, false, false⟩

def c6OrderEmpty : AccountOrder :=
  mkOrder 3 ⟨100⟩ ⟨0⟩ ⟨0⟩ ⟨0⟩ ⟨0⟩ (some "") none none none "AUTO"

def c6OrderCollapsed : AccountOrder :=
  mkOrder 3 ⟨100⟩ ⟨0⟩ ⟨0⟩ ⟨0⟩ ⟨0⟩ none none none none "AUTO"

/-- C6 counterexample: encode-then-decode is **not** the identity for every
domain record. A `MarketQuote` fails to decode its own serialization
(`delay` is written as a boolean but read as an integer), and an
`AccountOrder` holding `some ""` in an empty-string-as-absent field decodes
back to a different value (the field collapses to `none`). -/
theorem roundtrip_identity_counterexample :
    decodeMarketQuote (encodeMarketQuote c6Quote) =
      .error (.invalidType "non-integer" "u8") ∧
    decodeAccountOrder (encodeAccountOrder c6OrderEmpty) =
      .ok c6OrderCollapsed ∧
    c6OrderCollapsed ≠ c6OrderEmpty :=
  ⟨rfl, rfl, by decide⟩

/-- C6 (amended): encode-then-decode is the identity for every domain record
except (a) `MarketQuote`, for which it always fails with an invalid-type
error on the boolean-encoded `delay` field, and (b) values holding `some ""`
in an empty-string-as-absent field, which collapse to `none`. -/
theorem roundtrip_amended :
    (∀ a : Account, decodeAccount (encodeAccount a) = .ok a) ∧
    (∀ a : AccountActivity,
      decodeAccountActivity (encodeAccountActivity a) = .ok a) ∧
    (∀ o : AccountOrder, o.rejection_reason ≠ some "" → o.notes ≠ some "" →
      o.secondary_route ≠ some "" → o.venue_holding_order ≠ some "" →
      decodeAccountOrder (encodeAccountOrder o) = .ok o) ∧
    (∀ e : AccountExecution, e.notes ≠ some "" →
      decodeAccountExecution (encodeAccountExecution e) = .ok e) ∧
    (∀ b : AccountBalance,
      decodeAccountBalance (encodeAccountBalance b) = .ok b) ∧
    (∀ b : AccountBalances,
      decodeAccountBalances (encodeAccountBalances b) = .ok b) ∧
    (∀ p : AccountPosition,
      decodeAccountPosition (encodeAccountPosition p) = .ok p) ∧
    (∀ s : SearchEquitySymbol,
      decodeSearchEquitySymbol (encodeSearchEquitySymbol s) = .ok s) ∧
    (∀ q : MarketQuote, decodeMarketQuote (encodeMarketQuote q) =
      .error (.invalidType "non-integer" "u8")) :=
  ⟨account_roundtrip, accountActivity_roundtrip, accountOrder_roundtrip,
   accountExecution_roundtrip, accountBalance_roundtrip,
   accountBalances_roundtrip, accountPosition_roundtrip,
   searchEquitySymbol_roundtrip, marketQuote_roundtrip_fails⟩

/-- A concrete execution record for the C6 witness. -/
def c6Exec : AccountExecution :=
  ⟨53817310, 177106005, "AAPL", 8049, ⟨10⟩, .Buy, ⟨536⟩, 17710600,
   ⟨"2014-03-31T13:38:29Z"⟩, none, ⟨4⟩, ⟨0⟩, ⟨0⟩, ⟨0⟩, 0⟩

theorem roundtrip_amended_witness :
    decodeAccountOrder (encodeAccountOrder c4Order1) = .ok c4Order1 ∧
    decodeAccountExecution (encodeAccountExecution c6Exec) = .ok c6Exec :=
  ⟨roundtrip_amended.2.2.1 c4Order1 (by decide) (by decide) (by decide)
      (by decide),
   roundtrip_amended.2.2.2.1 c6Exec (by decide)⟩

/-- C7: `deserialize_nullable_number` maps JSON `null` to the number `0` and
any JSON number to itself — never a decode failure, never an absent marker —
and a whole order payload with `null` in all five nullable-numeric fields
(`openQuantity`, `filledQuantity`, `canceledQuantity`, `comissionCharged`,
`placementCommission`) decodes with the numeric zero in each of them. -/
theorem nullable_number_null_to_zero :
    deserialize_nullable_number Json.null = .ok ⟨0⟩ ∧
    (∀ n : Int, deserialize_nullable_number (Json.num n) = .ok ⟨n⟩) ∧
    decodeAccountOrder
        (mkOrderJson 4 .null .null .null .null .null
          (.str "") (.str "") (.str "") (.str "") "AUTO") =
      .ok (mkOrder 4 ⟨0⟩ ⟨0⟩ ⟨0⟩ ⟨0⟩ ⟨0⟩ none none none none "AUTO") :=
  ⟨rfl, fun _ => rfl, rfl⟩

/-- C8: under the empty-string-as-absent convention, payload `""` decodes to
`none` and a non-empty payload such as `"AUTO"` decodes to `some` of itself;
a field not under the convention (`primaryRoute`, plain `String`) keeps the
literal empty string.  The concrete order exercises the four convention
fields of `AccountOrder`. -/
theorem empty_string_as_none_decoding :
    string_empty_as_none (Json.str "") = .ok none ∧
    (∀ s : String, s ≠ "" →
      string_empty_as_none (Json.str s) = .ok (some s)) ∧
    decodeString (Json.str "") = .ok "" ∧
    decodeAccountOrder
        (mkOrderJson 5 (.num 100) (.num 0) (.num 0) (.num 0) (.num 0)
          (.str "") (.str "") (.str "AUTO") (.str "") "") =
      .ok (mkOrder 5 ⟨100⟩ ⟨0⟩ ⟨0⟩ ⟨0⟩ ⟨0⟩ none none (some "AUTO") none "") := by
  refine ⟨rfl, ?_, rfl, rfl⟩
  intro s hs
  simp [string_empty_as_none, hs]

theorem empty_string_as_none_decoding_witness :
    string_empty_as_none (Json.str "AUTO") = .ok (some "AUTO") :=
  empty_string_as_none_decoding.2.1 "AUTO" (by decide)

end QTrade
